import Mathlib

/-!
Verification development for the upsf-sess-ctx-manager repository
(src/upsf_sess_ctx_manager/app.py).

The source is a Python control-plane agent.  We give a shallow embedding of
its data model and of the operations the specification talks about:

* the session fingerprint (SessionContextManager.session_hash), including a
  full executable embedding of the MD5 digest it relies on (32-bit words are
  modelled as Nat reduced mod 2^32);
* the placement engine (SessionContextManager.map_session), modelled as a
  pure function from the snapshot reads, the point-read oracles and the
  session-context record to an outcome carrying the ordered list of UPSF
  write operations it issues;
* policy materialization (SessionContextManager.create_session_context and
  SessionContextManager.create_default_items), modelled as explicit state
  passing over the set of existing session-context names.

Python dict / set iteration order is abstracted to the underlying list
order; float division for load values is modelled with exact rationals.
Counters are modelled as Nat (protobuf session counts are non-negative).
-/

namespace UpsfScm

/-! ## MD5 (hashlib.md5), on byte lists -/

/-- Reduce a natural number to a 32-bit word. -/
def w32 (n : Nat) : Nat := n % 4294967296

/-- Left-rotate a 32-bit word by c bits (0 < c < 32). -/
def rotl32 (x c : Nat) : Nat := w32 ((x <<< c) ||| (x >>> (32 - c)))

/-- Bitwise complement of a 32-bit word. -/
def compl32 (x : Nat) : Nat := 4294967295 ^^^ x

/-- MD5 per-round sine-derived constants K[0..63]. -/
def md5K : List Nat :=
  [0xd76aa478, 0xe8c7b756, 0x242070db, 0xc1bdceee,
   0xf57c0faf, 0x4787c62a, 0xa8304613, 0xfd469501,
   0x698098d8, 0x8b44f7af, 0xffff5bb1, 0x895cd7be,
   0x6b901122, 0xfd987193, 0xa679438e, 0x49b40821,
   0xf61e2562, 0xc040b340, 0x265e5a51, 0xe9b6c7aa,
   0xd62f105d, 0x02441453, 0xd8a1e681, 0xe7d3fbc8,
   0x21e1cde6, 0xc33707d6, 0xf4d50d87, 0x455a14ed,
   0xa9e3e905, 0xfcefa3f8, 0x676f02d9, 0x8d2a4c8a,
   0xfffa3942, 0x8771f681, 0x6d9d6122, 0xfde5380c,
   0xa4beea44, 0x4bdecfa9, 0xf6bb4b60, 0xbebfbc70,
   0x289b7ec6, 0xeaa127fa, 0xd4ef3085, 0x04881d05,
   0xd9d4d039, 0xe6db99e5, 0x1fa27cf8, 0xc4ac5665,
   0xf4292244, 0x432aff97, 0xab9423a7, 0xfc93a039,
   0x655b59c3, 0x8f0ccc92, 0xffeff47d, 0x85845dd1,
   0x6fa87e4f, 0xfe2ce6e0, 0xa3014314, 0x4e0811a1,
   0xf7537e82, 0xbd3af235, 0x2ad7d2bb, 0xeb86d391]

/-- MD5 per-round left-rotation amounts s[0..63]. -/
def md5S : List Nat :=
  [7, 12, 17, 22, 7, 12, 17, 22, 7, 12, 17, 22, 7, 12, 17, 22,
   5, 9, 14, 20, 5, 9, 14, 20, 5, 9, 14, 20, 5, 9, 14, 20,
   4, 11, 16, 23, 4, 11, 16, 23, 4, 11, 16, 23, 4, 11, 16, 23,
   6, 10, 15, 21, 6, 10, 15, 21, 6, 10, 15, 21, 6, 10, 15, 21]

/-- Little-endian byte rendering of a 32-bit word. -/
def le4 (n : Nat) : List Nat :=
  [n % 256, (n >>> 8) % 256, (n >>> 16) % 256, (n >>> 24) % 256]

/-- Little-endian byte rendering of a 64-bit length field. -/
def le8 (n : Nat) : List Nat :=
  (List.range 8).map (fun i => (n >>> (8 * i)) % 256)

/-- MD5 padding: append 0x80, zero bytes up to 56 mod 64, then the
bit length as a little-endian 64-bit value. -/
def md5Pad (msg : List Nat) : List Nat :=
  let len := msg.length
  let zeros := (120 - ((len + 1) % 64)) % 64
  msg ++ 0x80 :: List.replicate zeros 0 ++ le8 ((len * 8) % 18446744073709551616)

/-- Word g (0..15) of chunk i of the padded message, little-endian. -/
def md5Word (m : List Nat) (i g : Nat) : Nat :=
  m.getD (64 * i + 4 * g) 0
    + 256 * m.getD (64 * i + 4 * g + 1) 0
    + 65536 * m.getD (64 * i + 4 * g + 2) 0
    + 16777216 * m.getD (64 * i + 4 * g + 3) 0

/-- One of the 64 MD5 rounds, acting on the running (a, b, c, d) state. -/
def md5Round (m : Nat → Nat) (st : Nat × Nat × Nat × Nat) (i : Nat) :
    Nat × Nat × Nat × Nat :=
  let a := st.1
  let b := st.2.1
  let c := st.2.2.1
  let d := st.2.2.2
  let fg : Nat × Nat :=
    if i < 16 then ((b &&& c) ||| (compl32 b &&& d), i)
    else if i < 32 then ((d &&& b) ||| (compl32 d &&& c), (5 * i + 1) % 16)
    else if i < 48 then (b ^^^ c ^^^ d, (3 * i + 5) % 16)
    else (c ^^^ (b ||| compl32 d), (7 * i) % 16)
  let f := w32 (fg.1 + a + md5K.getD i 0 + m fg.2)
  (d, w32 (b + rotl32 f (md5S.getD i 0)), b, c)

/-- Process chunk i of the padded message against the running digest state. -/
def md5Chunk (m : List Nat) (st : Nat × Nat × Nat × Nat) (i : Nat) :
    Nat × Nat × Nat × Nat :=
  let r := (List.range 64).foldl (md5Round (md5Word m i)) st
  (w32 (st.1 + r.1), w32 (st.2.1 + r.2.1), w32 (st.2.2.1 + r.2.2.1),
   w32 (st.2.2.2 + r.2.2.2))

/-- MD5 digest state after consuming a whole byte message. -/
def md5State (msg : List Nat) : Nat × Nat × Nat × Nat :=
  let m := md5Pad msg
  (List.range (m.length / 64)).foldl (md5Chunk m)
    (0x67452301, 0xefcdab89, 0x98badcfe, 0x10325476)

/-- Lower-case hexadecimal digit. -/
def hexDigit (n : Nat) : Char :=
  if n < 10 then Char.ofNat (48 + n) else Char.ofNat (87 + n)

/-- Two lower-case hex digits of one byte. -/
def byteHex (b : Nat) : List Char :=
  [hexDigit (b / 16), hexDigit (b % 16)]

/-- Hexadecimal MD5 digest of a byte message, as produced by the Python
expression hashlib.md5(data).hexdigest(). -/
def md5Hex (msg : List Nat) : String :=
  let st := md5State msg
  String.mk (((le4 st.1 ++ le4 st.2.1 ++ le4 st.2.2.1 ++ le4 st.2.2.2).map
    byteHex).flatten)

/-! ## UTF-8 encoding (Python str.encode) -/

/-- UTF-8 encoding of one character. -/
def utf8Char (c : Char) : List Nat :=
  let n := c.toNat
  if n < 128 then [n]
  else if n < 2048 then [192 ||| (n >>> 6), 128 ||| (n &&& 63)]
  else if n < 65536 then
    [224 ||| (n >>> 12), 128 ||| ((n >>> 6) &&& 63), 128 ||| (n &&& 63)]
  else
    [240 ||| (n >>> 18), 128 ||| ((n >>> 12) &&& 63),
     128 ||| ((n >>> 6) &&& 63), 128 ||| (n &&& 63)]

/-- UTF-8 byte rendering of a string (Python str.encode()). -/
def utf8Bytes (s : String) : List Nat :=
  s.data.flatMap utf8Char

/-! ## Session fingerprint (SessionContextManager.session_hash)

Python keyword-argument values reaching session_hash are either strings or
integers (the latter only for svlan / cvlan, which the source passes through
str()).  The five keys the function reads are modelled as typed optional
fields (an absent keyword argument is none, in which case kwargs.get
substitutes its default); every other keyword argument is an uninterpreted
extra association list, which session_hash never reads. -/

/-- Python value reaching str(): either a string or an integer. -/
inductive PyVal where
  | str (s : String)
  | int (n : Int)
deriving DecidableEq

/-- Python str() rendering: strings unchanged, integers in base-10 decimal. -/
def pyStr : PyVal → String
  | .str s => s
  | .int n => toString n

/-- Keyword arguments of a session_hash call. -/
structure SessionKwargs where
  circuit_id : Option String
  remote_id : Option String
  source_mac_address : Option String
  svlan : Option PyVal
  cvlan : Option PyVal
  extra : List (String × PyVal)
deriving DecidableEq

/-- Rendering of kwargs.get(key, "") for a string-typed key. -/
def optStr (o : Option String) : String := o.getD ""

/-- Rendering of str(kwargs.get(key, "")) for svlan / cvlan. -/
def optPyStr (o : Option PyVal) : String :=
  match o with
  | some v => pyStr v
  | none => ""

/-- Embedding of SessionContextManager.session_hash: MD5 hex digest of the
separator-free concatenation of the five components (byte concatenation of
the UTF-8 encodings equals the UTF-8 encoding of the string concatenation). -/
def session_hash (k : SessionKwargs) : String :=
  md5Hex (utf8Bytes (optStr k.circuit_id ++ optStr k.remote_id
    ++ optStr k.source_mac_address ++ optPyStr k.svlan ++ optPyStr k.cvlan))

/-! ## Data model of the UPSF records read and written by map_session

Field names follow the protobuf attribute chains used in the source:
for a Shard, desired_sgup is shard.spec.desired_state.service_gateway_user_plane,
max_session_count is shard.spec.max_session_count and allocated_session_count
is shard.status.allocated_session_count; analogously for a service gateway
user plane and for a session context (desired_shard is
sctx.spec.desired_state.shard, the empty string meaning unset). -/

structure Shard where
  name : String
  desired_sgup : String
  max_session_count : Nat
  allocated_session_count : Nat
deriving DecidableEq

structure ServiceGatewayUserPlane where
  name : String
  supported_service_group : List String
  max_session_count : Nat
  allocated_session_count : Nat
deriving DecidableEq

structure SessionContext where
  name : String
  required_quality : Nat
  required_service_group : List String
  desired_shard : String
deriving DecidableEq

/-- Configuration fields of SessionContextManager used by the claims. -/
structure Config where
  default_required_quality : Nat
  default_required_service_groups : String
deriving DecidableEq

/-- Comma split of a character list, with the semantics of the Python
expression s.split(","): the split of the empty string is one empty
component, and every comma opens a new component. -/
def split_comma_chars : List Char → List (List Char)
  | [] => [[]]
  | c :: cs =>
    match split_comma_chars cs with
    | [] => [[]]
    | w :: ws => if c = ',' then [] :: w :: ws else (c :: w) :: ws

/-- Embedding of the Python expression s.split(","). -/
def py_split_comma (s : String) : List String :=
  (split_comma_chars s.data).map String.mk

/-- Embedding of the list comprehension over
default_required_service_groups.split(",") dropping empty components. -/
def default_rsg_list (s : String) : List String :=
  (py_split_comma s).filter (fun rsg => rsg != "")

/-! ## Placement engine (SessionContextManager.map_session) -/

/-- Test sctx.spec.required_quality in (0, None, ""): the protobuf field is
an integer, unset iff zero. -/
def quality_unset (sctx : SessionContext) : Bool :=
  sctx.required_quality == 0

/-- Test sctx.spec.required_service_group in ([], [""], None, ""): the
protobuf field is a list of strings. -/
def rsg_unset (sctx : SessionContext) : Bool :=
  sctx.required_service_group == [] || sctx.required_service_group == [""]

/-- Value placed in params for required_quality, when any. -/
def quality_fill (cfg : Config) (sctx : SessionContext) : Option Nat :=
  if quality_unset sctx then some cfg.default_required_quality else none

/-- Value placed in params for required_service_group, when any. -/
def rsg_fill (cfg : Config) (sctx : SessionContext) : Option (List String) :=
  if rsg_unset sctx then some (default_rsg_list cfg.default_required_service_groups)
  else none

/-- Embedding of Python min(d, key=d.get) over a load mapping: the first
element of least load wins, matching min over iteration order; an empty
mapping yields none, where Python raises ValueError. -/
def argmin_load {α : Type} (f : α → ℚ) : List α → Option α
  | [] => none
  | x :: xs => some (xs.foldl (fun best y => if f y < f best then y else best) x)

/-- Load value of a service gateway user plane (float division in Python,
modelled exactly over the rationals). -/
def sgup_load_value (u : ServiceGatewayUserPlane) : ℚ :=
  (u.allocated_session_count : ℚ) / (u.max_session_count : ℚ)

/-- Load value of a shard. -/
def shard_load_value (s : Shard) : ℚ :=
  (s.allocated_session_count : ℚ) / (s.max_session_count : ℚ)

/-- Set of service gateway user plane names referenced by some shard
(shard_candidate_sgups in the source). -/
def shard_candidate_sgups (shards : List Shard) : List String :=
  shards.map (fun s => s.desired_sgup)

/-- Dict service_gateway_user_planes in the source: user planes referenced
by at least one shard. -/
def sgup_pool (shards : List Shard) (sgups : List ServiceGatewayUserPlane) :
    List ServiceGatewayUserPlane :=
  sgups.filter (fun u => (shard_candidate_sgups shards).contains u.name)

/-- Set sgup_candidates in the source: referenced user planes supporting all
required service groups and with spare capacity. -/
def sgup_candidates (sctx : SessionContext) (shards : List Shard)
    (sgups : List ServiceGatewayUserPlane) : List ServiceGatewayUserPlane :=
  (sgup_pool shards sgups).filter (fun u =>
    sctx.required_service_group.all (fun g => u.supported_service_group.contains g)
      && decide (u.allocated_session_count < u.max_session_count))

/-- Keys of the dict sgup_load in the source (its guard conditions repeated
verbatim; membership in the candidate dict is immediate). -/
def sgup_load_keys (sctx : SessionContext) (shards : List Shard)
    (sgups : List ServiceGatewayUserPlane) : List ServiceGatewayUserPlane :=
  (sgup_candidates sctx shards sgups).filter (fun u =>
    decide (0 < u.max_session_count)
      && decide (u.allocated_session_count < u.max_session_count))

/-- Dict shard_candidates in the source (second construction, keyed on the
selected user plane). -/
def shard_candidates (shards : List Shard) (sgup_name_selected : String) :
    List Shard :=
  shards.filter (fun s => s.desired_sgup == sgup_name_selected)

/-- Keys of the dict shard_load in the source. -/
def shard_load_keys (shards : List Shard) (sgup_name_selected : String) :
    List Shard :=
  (shard_candidates shards sgup_name_selected).filter (fun s =>
    decide (0 < s.max_session_count)
      && decide (s.allocated_session_count < s.max_session_count))

/-- Outcome of the candidate-selection part of map_session (Steps C-F). -/
inductive PlaceResult where
  | no_sgup_candidates
  | no_shard_candidates
  | empty_min_value_error
  | chosen (sgup : ServiceGatewayUserPlane) (shard : Shard)
deriving DecidableEq

/-- Steps C-F of map_session: selection of the least-loaded eligible user
plane, then of the least-loaded shard among those referencing it.  The
empty_min_value_error outcome models Python min() raising ValueError on an
empty load dict, which map_session does not catch. -/
def place_sctx (sctx : SessionContext) (shards : List Shard)
    (sgups : List ServiceGatewayUserPlane) : PlaceResult :=
  if (sgup_candidates sctx shards sgups).isEmpty then .no_sgup_candidates
  else
    match argmin_load sgup_load_value (sgup_load_keys sctx shards sgups) with
    | none => .empty_min_value_error
    | some sgup_sel =>
      if (shard_candidates shards sgup_sel.name).isEmpty then .no_shard_candidates
      else
        match argmin_load shard_load_value (shard_load_keys shards sgup_sel.name) with
        | none => .empty_min_value_error
        | some shard_sel => .chosen sgup_sel shard_sel

/-- One UPSF write issued by map_session, in program order. -/
inductive WriteOp where
  | update_shard (name : String) (allocated_session_count : Nat)
  | update_service_gateway_user_plane (name : String)
      (allocated_session_count : Nat)
  | update_session_context (name : String) (required_quality : Option Nat)
      (required_service_group : Option (List String))
      (desired_shard : Option String)
deriving DecidableEq

/-- Outcome of one map_session invocation.  The first five constructors are
returns with no UPSF write (the warn-and-return paths and the two snapshot
sanity checks), except empty_min_value_error which models the uncaught
ValueError from min().  done carries the ordered write list. -/
inductive MapOutcome where
  | no_shards
  | no_sgups
  | no_sgup_candidates
  | no_shard_candidates
  | empty_min_value_error
  | done (writes : List WriteOp)
deriving DecidableEq

/-- UPSF writes issued by an invocation with the given outcome. -/
def writes_of : MapOutcome → List WriteOp
  | .done ws => ws
  | _ => []

/-- Embedding of SessionContextManager.map_session.  The snapshot reads
list_shards() and list_service_gateway_user_planes() are the shards and
sgups arguments; the point reads get_shard(name) and
get_service_gateway_user_plane(name) issued later in Step G are the oracles
get_shard and get_sgup, which may observe state newer than the snapshot. -/
def map_session (cfg : Config) (sctx : SessionContext)
    (shards : List Shard) (sgups : List ServiceGatewayUserPlane)
    (get_shard : String → Shard)
    (get_sgup : String → ServiceGatewayUserPlane) : MapOutcome :=
  if shards.length == 0 then .no_shards
  else if sgups.length == 0 then .no_sgups
  else
    if sctx.desired_shard == "" && !rsg_unset sctx then
      match place_sctx sctx shards sgups with
      | .no_sgup_candidates => .no_sgup_candidates
      | .no_shard_candidates => .no_shard_candidates
      | .empty_min_value_error => .empty_min_value_error
      | .chosen sgup_sel shard_sel =>
        .done
          [.update_shard shard_sel.name
            ((get_shard shard_sel.name).allocated_session_count + 1),
           .update_service_gateway_user_plane sgup_sel.name
            ((get_sgup sgup_sel.name).allocated_session_count + 1),
           .update_session_context sctx.name (quality_fill cfg sctx)
            (rsg_fill cfg sctx) (some shard_sel.name)]
    else
      if (quality_fill cfg sctx).isSome || (rsg_fill cfg sctx).isSome then
        .done [.update_session_context sctx.name (quality_fill cfg sctx)
          (rsg_fill cfg sctx) none]
      else .done []

/-! ## Policy materialization (create_session_context / create_default_items)

A policy entry is the YAML mapping for one sessionContexts item.  YAML keys
that may be absent are Option fields.  The svlan / cvlan values are declared
int-as-string in the configuration schema; they are modelled as naturals,
rendered in decimal where the source applies str() and used directly where
the source applies int().  The UPSF session-context store is modelled by the
list of existing session-context names (what list_session_contexts()
returns, assumed to reflect earlier creations), threaded explicitly. -/

/-- Sub-entry of a services list in a policy entry. -/
structure ServiceItem where
  circuitId : Option String
  remoteId : Option String
  sourceMacAddress : Option String
  svlan : Option Nat
  cvlan : Option Nat
  shard : Option String
  requiredServiceGroups : Option (List String)
  requiredQuality : Option Nat
deriving DecidableEq

/-- Policy entry from config["upsf"]["sessionContexts"]. -/
structure Entry where
  name : Option String
  customerType : Option String
  circuitId : Option String
  remoteId : Option String
  sourceMacAddress : Option String
  svlan : Option Nat
  cvlan : Option Nat
  shard : Option String
  requiredServiceGroups : Option (List String)
  requiredQuality : Option Nat
  services : List ServiceItem
deriving DecidableEq

/-- Keyword arguments with which create_session_context invokes
session_hash (every one of the five keys is passed explicitly, with the
string defaults "" and "0" for absent entry keys). -/
def entry_kwargs (e : Entry) : SessionKwargs :=
  { circuit_id := some (e.circuitId.getD "")
    remote_id := some (e.remoteId.getD "")
    source_mac_address := some (e.sourceMacAddress.getD "")
    svlan := some (.int (e.svlan.getD 0))
    cvlan := some (.int (e.cvlan.getD 0))
    extra := [] }

/-- Test entry.get("shard", None) not in ("", None). -/
def shard_requested (e : Entry) : Bool :=
  match e.shard with
  | some s => s != ""
  | none => false

/-- Parameters of the create_session_context RPC issued for one entry. -/
structure CreateOp where
  name : String
  required_service_group : List String
  required_quality : Nat
  description : String
  circuit_id : String
  remote_id : String
  source_mac_address : String
  svlan : Nat
  cvlan : Nat
  desired_shard : Option String
deriving DecidableEq

/-- RPC parameters built from an entry whose fingerprint is hash. -/
def mk_create_op (cfg : Config) (e : Entry) (hash : String) : CreateOp :=
  { name := hash
    required_service_group :=
      e.requiredServiceGroups.getD
        (py_split_comma cfg.default_required_service_groups)
    required_quality := e.requiredQuality.getD cfg.default_required_quality
    description := "name=" ++ e.name.getD "" ++ ";customer_type="
      ++ e.customerType.getD "residential"
    circuit_id := e.circuitId.getD ""
    remote_id := e.remoteId.getD ""
    source_mac_address := e.sourceMacAddress.getD ""
    svlan := e.svlan.getD 0
    cvlan := e.cvlan.getD 0
    desired_shard :=
      if shard_requested e then some (e.shard.getD "") else none }

/-- Embedding of SessionContextManager.create_session_context: given the
shard-name snapshot and the current session-context names, return the new
name list and the create RPC issued, if any.  An existing fingerprint and a
requested-but-absent shard are both warn-and-return paths issuing nothing. -/
def create_session_context (cfg : Config) (e : Entry) (shards : List String)
    (sctx_names : List String) : List String × Option CreateOp :=
  let hash := session_hash (entry_kwargs e)
  if sctx_names.contains hash then (sctx_names, none)
  else if shard_requested e && !shards.contains (e.shard.getD "") then
    (sctx_names, none)
  else (hash :: sctx_names, some (mk_create_op cfg e hash))

/-- Expansion of one named entry into its derived entries: one per services
item (each item inheriting unset keys from the parent), or the entry itself
when services is absent or empty. -/
def expand_entry (e : Entry) : List Entry :=
  if e.services.isEmpty then [e]
  else
    e.services.map (fun item =>
      { e with
        circuitId := some (item.circuitId.getD (e.circuitId.getD ""))
        remoteId := some (item.remoteId.getD (e.remoteId.getD ""))
        sourceMacAddress :=
          some (item.sourceMacAddress.getD (e.sourceMacAddress.getD ""))
        svlan := some (item.svlan.getD (e.svlan.getD 0))
        cvlan := some (item.cvlan.getD (e.cvlan.getD 0))
        shard := some (item.shard.getD (e.shard.getD ""))
        requiredServiceGroups :=
          some (item.requiredServiceGroups.getD (e.requiredServiceGroups.getD []))
        requiredQuality :=
          some (item.requiredQuality.getD (e.requiredQuality.getD 0)) })

/-- Derived entry sequence of a whole configuration: entries missing the
name key are skipped with a warning, the others are expanded in order. -/
def derive_config (config : List Entry) : List Entry :=
  config.flatMap (fun e => if e.name.isNone then [] else expand_entry e)

/-- Sequential creation of the derived entries, threading the name list. -/
def create_many (cfg : Config) (shards : List String) :
    List Entry → List String → List String × List CreateOp
  | [], sctx_names => (sctx_names, [])
  | e :: es, sctx_names =>
    let r := create_session_context cfg e shards sctx_names
    let rest := create_many cfg shards es r.1
    (rest.1, r.2.toList ++ rest.2)

/-- Embedding of SessionContextManager.create_default_items for a parsed
configuration: the shard snapshot is taken once, each derived entry is
handed to create_session_context in order. -/
def create_default_items (cfg : Config) (config : List Entry)
    (shards : List String) (sctx_names : List String) :
    List String × List CreateOp :=
  create_many cfg shards (derive_config config) sctx_names

/-! ## Helper lemmas -/

theorem foldl_min_mem {α : Type} (f : α → ℚ) (xs : List α) (x : α) :
    xs.foldl (fun best y => if f y < f best then y else best) x ∈ x :: xs := by
  induction xs generalizing x with
  | nil => simp
  | cons y ys ih =>
    simp only [List.foldl_cons]
    by_cases hc : f y < f x
    · rw [if_pos hc]
      rcases List.mem_cons.mp (ih y) with h | h
      · simp [h]
      · simp [List.mem_cons, h]
    · rw [if_neg hc]
      rcases List.mem_cons.mp (ih x) with h | h
      · simp [h]
      · simp [List.mem_cons, h]

theorem argmin_load_mem {α : Type} (f : α → ℚ) (l : List α) (x : α)
    (h : argmin_load f l = some x) : x ∈ l := by
  match l with
  | [] => simp [argmin_load] at h
  | a :: as =>
    simp only [argmin_load, Option.some.injEq] at h
    exact h ▸ foldl_min_mem f as a

theorem sgup_candidate_spec (sctx : SessionContext) (shards : List Shard)
    (sgups : List ServiceGatewayUserPlane) (u : ServiceGatewayUserPlane)
    (h : u ∈ sgup_candidates sctx shards sgups) :
    (∃ sh ∈ shards, sh.desired_sgup = u.name) ∧
    (∀ g ∈ sctx.required_service_group, g ∈ u.supported_service_group) ∧
    u.allocated_session_count < u.max_session_count := by
  unfold sgup_candidates at h
  rw [List.mem_filter] at h
  obtain ⟨hpool, hcond⟩ := h
  unfold sgup_pool at hpool
  rw [List.mem_filter] at hpool
  obtain ⟨-, href⟩ := hpool
  rw [Bool.and_eq_true] at hcond
  obtain ⟨hall, hcap⟩ := hcond
  refine ⟨?_, ?_, of_decide_eq_true hcap⟩
  · have : u.name ∈ shard_candidate_sgups shards := by simpa using href
    unfold shard_candidate_sgups at this
    rw [List.mem_map] at this
    obtain ⟨sh, hsh, he⟩ := this
    exact ⟨sh, hsh, he⟩
  · intro g hg
    have := (List.all_eq_true.mp hall) g hg
    simpa using this

theorem shard_load_key_spec (shards : List Shard) (uname : String) (s : Shard)
    (h : s ∈ shard_load_keys shards uname) :
    s ∈ shards ∧ s.desired_sgup = uname ∧ 0 < s.max_session_count ∧
    s.allocated_session_count < s.max_session_count := by
  unfold shard_load_keys at h
  rw [List.mem_filter] at h
  obtain ⟨hcand, hcond⟩ := h
  unfold shard_candidates at hcand
  rw [List.mem_filter] at hcand
  obtain ⟨hmem, heq⟩ := hcand
  rw [Bool.and_eq_true] at hcond
  obtain ⟨hpos, hcap⟩ := hcond
  exact ⟨hmem, by simpa using heq, of_decide_eq_true hpos, of_decide_eq_true hcap⟩

theorem place_sctx_chosen (sctx : SessionContext) (shards : List Shard)
    (sgups : List ServiceGatewayUserPlane) (u : ServiceGatewayUserPlane)
    (s : Shard) (h : place_sctx sctx shards sgups = .chosen u s) :
    u ∈ sgup_candidates sctx shards sgups ∧ s ∈ shard_load_keys shards u.name := by
  unfold place_sctx at h
  split at h
  · cases h
  · split at h
    · cases h
    · rename_i u1 hm1
      split at h
      · cases h
      · split at h
        · cases h
        · rename_i s1 hm2
          injection h with hu hs
          subst hu
          subst hs
          constructor
          · have := argmin_load_mem _ _ _ hm1
            unfold sgup_load_keys at this
            exact (List.mem_filter.mp this).1
          · exact argmin_load_mem _ _ _ hm2

theorem length_beq_zero_eq_false {α : Type} (l : List α) (h : l ≠ []) :
    (l.length == 0) = false := by
  cases l with
  | nil => exact absurd rfl h
  | cons a as => rfl

theorem create_session_context_cases (cfg : Config) (e : Entry)
    (shards sctx_names : List String) :
    create_session_context cfg e shards sctx_names = (sctx_names, none) ∨
    ∃ op, create_session_context cfg e shards sctx_names
        = (op.name :: sctx_names, some op) ∧ op.name ∉ sctx_names := by
  unfold create_session_context
  by_cases h1 : sctx_names.contains (session_hash (entry_kwargs e)) = true
  · left
    rw [if_pos h1]
  · rw [if_neg h1]
    by_cases h2 : (shard_requested e && !shards.contains (e.shard.getD "")) = true
    · left
      rw [if_pos h2]
    · right
      refine ⟨mk_create_op cfg e (session_hash (entry_kwargs e)), ?_, ?_⟩
      · rw [if_neg h2]
        rfl
      · intro hmem
        exact h1 (by simpa using hmem)

theorem create_many_mem_mono (cfg : Config) (shards : List String)
    (es : List Entry) (st : List String) (n : String) (h : n ∈ st) :
    n ∈ (create_many cfg shards es st).1 := by
  induction es generalizing st with
  | nil => simpa [create_many]
  | cons e es ih =>
    simp only [create_many]
    apply ih
    rcases create_session_context_cases cfg e shards st with hc | ⟨op, hc, -⟩
    · rw [hc]
      exact h
    · rw [hc]
      exact List.mem_cons_of_mem _ h

theorem create_many_fresh (cfg : Config) (shards : List String)
    (es : List Entry) (st : List String) :
    ∀ op ∈ (create_many cfg shards es st).2, op.name ∉ st := by
  induction es generalizing st with
  | nil => simp [create_many]
  | cons e es ih =>
    intro op hop
    simp only [create_many, List.mem_append] at hop
    rcases create_session_context_cases cfg e shards st with hc | ⟨op1, hc, hfresh⟩
    · rw [hc] at hop
      simp only [Option.toList_none, List.not_mem_nil, false_or] at hop
      exact ih st op hop
    · rw [hc] at hop
      simp only [Option.toList_some, List.mem_singleton] at hop
      rcases hop with hop | hop
      · exact hop ▸ hfresh
      · have := ih (op1.name :: st) op hop
        intro hst
        exact this (List.mem_cons_of_mem _ hst)

theorem create_many_nodup (cfg : Config) (shards : List String)
    (es : List Entry) (st : List String) :
    ((create_many cfg shards es st).2.map CreateOp.name).Nodup := by
  induction es generalizing st with
  | nil => simp [create_many]
  | cons e es ih =>
    simp only [create_many]
    rcases create_session_context_cases cfg e shards st with hc | ⟨op1, hc, -⟩
    · rw [hc]
      simpa using ih st
    · rw [hc]
      simp only [Option.toList_some, List.singleton_append, List.map_cons]
      rw [List.nodup_cons]
      refine ⟨?_, ih (op1.name :: st)⟩
      intro hmem
      rw [List.mem_map] at hmem
      obtain ⟨op, hop, he⟩ := hmem
      have := create_many_fresh cfg shards es (op1.name :: st) op hop
      exact this (he ▸ List.mem_cons_self _ _)

theorem create_many_name_in_state (cfg : Config) (shards : List String)
    (es : List Entry) (st : List String) :
    ∀ op ∈ (create_many cfg shards es st).2,
      op.name ∈ (create_many cfg shards es st).1 := by
  induction es generalizing st with
  | nil => simp [create_many]
  | cons e es ih =>
    intro op hop
    simp only [create_many, List.mem_append] at hop ⊢
    rcases create_session_context_cases cfg e shards st with hc | ⟨op1, hc, -⟩
    · rw [hc] at hop ⊢
      simp only [Option.toList_none, List.not_mem_nil, false_or] at hop
      exact ih st op hop
    · rw [hc] at hop ⊢
      simp only [Option.toList_some, List.mem_singleton] at hop
      rcases hop with hop | hop
      · exact hop ▸ create_many_mem_mono cfg shards es _ _ (List.mem_cons_self _ _)
      · exact ih (op1.name :: st) op hop

/-! ## Claims -/

/-- Claim C7: session_hash is a pure, deterministic function of exactly the
5-tuple (circuit_id, remote_id, source_mac_address, svlan, cvlan): any two
calls agreeing on these five values return the same name, regardless of any
other keyword arguments, and the name is the MD5 hex digest of the
separator-free concatenation of the five components rendered as strings
(numerics decimal, absent values empty). -/
theorem C7_session_hash_pure (k1 k2 : SessionKwargs)
    (h1 : k1.circuit_id = k2.circuit_id) (h2 : k1.remote_id = k2.remote_id)
    (h3 : k1.source_mac_address = k2.source_mac_address)
    (h4 : k1.svlan = k2.svlan) (h5 : k1.cvlan = k2.cvlan) :
    session_hash k1 = session_hash k2 ∧
    session_hash k1 = md5Hex (utf8Bytes (optStr k1.circuit_id
      ++ optStr k1.remote_id ++ optStr k1.source_mac_address
      ++ optPyStr k1.svlan ++ optPyStr k1.cvlan)) := by
  constructor
  · unfold session_hash
    rw [h1, h2, h3, h4, h5]
  · rfl

/-- Claim C7 witness: two concrete calls agreeing on the 5-tuple but
differing in an extra keyword argument yield the same name. -/
theorem C7_witness :
    session_hash ⟨some "c1", some "r1", some "aa:bb", some (.int 10),
        some (.int 20), [("other", .int 7)]⟩
      = session_hash ⟨some "c1", some "r1", some "aa:bb", some (.int 10),
        some (.int 20), []⟩ ∧
    session_hash ⟨some "c1", some "r1", some "aa:bb", some (.int 10),
        some (.int 20), [("other", .int 7)]⟩
      = md5Hex (utf8Bytes (optStr (some "c1") ++ optStr (some "r1")
        ++ optStr (some "aa:bb") ++ optPyStr (some (.int 10))
        ++ optPyStr (some (.int 20)))) :=
  C7_session_hash_pure _ _ rfl rfl rfl rfl rfl

/-- Claim C10: session_hash is not injective on the 5-tuple: the distinct
tuples (circuit_id="ab", remote_id="") and (circuit_id="a", remote_id="b"),
other components equal, have identical separator-free concatenations and
hence identical fingerprints. -/
theorem C10_session_hash_collision :
    (⟨some "ab", some "", some "", some (.str "0"), some (.str "0"), []⟩
        : SessionKwargs)
      ≠ ⟨some "a", some "b", some "", some (.str "0"), some (.str "0"), []⟩ ∧
    session_hash ⟨some "ab", some "", some "", some (.str "0"),
        some (.str "0"), []⟩
      = session_hash ⟨some "a", some "b", some "", some (.str "0"),
        some (.str "0"), []⟩ :=
  ⟨by decide, rfl⟩

/-- Claim C9: for every policy entry whose shard key is non-empty but names
a shard absent from the shard snapshot, create_session_context returns
without issuing a create (and without touching the name store); in
particular no session context is created with an empty desired_shard. -/
theorem C9_missing_shard_skips (cfg : Config) (e : Entry)
    (shards sctx_names : List String) (s : String)
    (h1 : e.shard = some s) (h2 : s ≠ "") (h3 : s ∉ shards) :
    create_session_context cfg e shards sctx_names = (sctx_names, none) := by
  unfold create_session_context
  by_cases hc : sctx_names.contains (session_hash (entry_kwargs e)) = true
  · rw [if_pos hc]
  · rw [if_neg hc]
    have hr : shard_requested e = true := by
      unfold shard_requested
      rw [h1]
      simpa using h2
    have hcc : shards.contains (e.shard.getD "") = false := by
      rw [h1]
      simpa using h3
    rw [if_pos (by rw [hr, hcc]; rfl)]

/-- Claim C9 witness: a concrete entry requesting the absent shard
missing-shard is skipped with no create issued. -/
theorem C9_witness :
    create_session_context ⟨1000, "basic-internet"⟩
      ⟨some "e1", none, some "c", none, none, none, none,
        some "missing-shard", none, none, []⟩
      ["other-shard"] [] = ([], none) :=
  C9_missing_shard_skips _ _ _ _ "missing-shard" rfl (by decide) (by decide)

/-- Claim C2 (code bug witness): when an SGUP is chosen but every shard
referencing it fails the capacity filter, map_session does not warn and
return; Python min() is applied to an empty shard_load dict and raises an
uncaught ValueError (map_session catches only UpsfError).  Concretely:
shard X references the chosen SGUP A but is at capacity (1 of 1), so the
invocation ends in the uncaught-ValueError outcome. -/
theorem C2_failing_input :
    map_session ⟨1000, "basic-internet"⟩ ⟨"c1", 7, ["basic"], ""⟩
      [⟨"X", "A", 1, 1⟩] [⟨"A", ["basic"], 100, 0⟩]
      (fun _ => ⟨"X", "A", 1, 1⟩) (fun _ => ⟨"A", ["basic"], 100, 0⟩)
      = .empty_min_value_error := by decide

/-- Claim C1 counterexample: map_session re-reads the chosen shard by a
point read before incrementing, contrary to the claim that the snapshot
value is used.  Snapshot shard X has allocated_session_count 0, the point
read returns 5, and the issued write carries 6, not 0 + 1. -/
theorem C1_counterexample :
    map_session ⟨1000, "basic-internet"⟩ ⟨"c1", 7, ["basic"], ""⟩
      [⟨"X", "A", 50, 0⟩] [⟨"A", ["basic"], 100, 0⟩]
      (fun _ => ⟨"X", "A", 50, 5⟩) (fun _ => ⟨"A", ["basic"], 100, 2⟩)
      = .done [.update_shard "X" 6,
          .update_service_gateway_user_plane "A" 3,
          .update_session_context "c1" none none (some "X")]
    ∧ (6 : Nat) ≠ 0 + 1 := by
  constructor
  · decide
  · decide

/-- Claim C3 counterexample: a session context with empty desired_shard and
unset required_service_groups, a non-empty configured default list and an
eligible SGUP/Shard pair still gets no placement in the same invocation:
the single write fills the defaults with desired_shard absent, because the
placement guard reads the stored (empty) required_service_group.  The last
conjunct shows the defaulted list would have had an eligible pair. -/
theorem C3_counterexample :
    map_session ⟨1000, "basic-internet"⟩ ⟨"c1", 0, [], ""⟩
      [⟨"X", "A", 50, 0⟩] [⟨"A", ["basic-internet"], 100, 0⟩]
      (fun _ => ⟨"X", "A", 50, 0⟩) (fun _ => ⟨"A", ["basic-internet"], 100, 0⟩)
      = .done [.update_session_context "c1" (some 1000)
          (some ["basic-internet"]) none]
    ∧ default_rsg_list "basic-internet" ≠ []
    ∧ place_sctx ⟨"c1", 0, ["basic-internet"], ""⟩ [⟨"X", "A", 50, 0⟩]
        [⟨"A", ["basic-internet"], 100, 0⟩]
      = .chosen ⟨"A", ["basic-internet"], 100, 0⟩ ⟨"X", "A", 50, 0⟩ := by
  refine ⟨by decide, by decide, by decide⟩

/-- Claim C5 counterexample: a session context with non-empty desired_shard
and unset required_quality gets no defaults write at all when the shard
snapshot list is empty: map_session returns at the no-shards sanity check
before Step A, issuing no update_session_context. -/
theorem C5_counterexample :
    map_session ⟨1000, "basic-internet"⟩ ⟨"c1", 0, ["basic"], "X"⟩
      [] [⟨"A", ["basic"], 100, 0⟩]
      (fun _ => ⟨"X", "A", 50, 0⟩) (fun _ => ⟨"A", ["basic"], 100, 0⟩)
      = .no_shards
    ∧ writes_of (map_session ⟨1000, "basic-internet"⟩ ⟨"c1", 0, ["basic"], "X"⟩
        [] [⟨"A", ["basic"], 100, 0⟩]
        (fun _ => ⟨"X", "A", 50, 0⟩) (fun _ => ⟨"A", ["basic"], 100, 0⟩)) = [] := by
  refine ⟨by decide, by decide⟩

/-- Claim C1 (amended): in Step G of a placement that chose a shard, the
engine re-reads BOTH records by point reads: it writes the chosen shard
with the freshly point-read allocated_session_count plus one, then re-reads
the chosen SGUP and writes back its freshly read allocated_session_count
plus one; the writes occur in this order (shard first, then SGUP), followed
by the session-context update carrying the chosen shard name. -/
theorem C1_counter_bump (cfg : Config) (sctx : SessionContext)
    (shards : List Shard) (sgups : List ServiceGatewayUserPlane)
    (get_shard : String → Shard) (get_sgup : String → ServiceGatewayUserPlane)
    (u : ServiceGatewayUserPlane) (s : Shard)
    (h1 : shards ≠ []) (h2 : sgups ≠ [])
    (h3 : sctx.desired_shard = "") (h4 : rsg_unset sctx = false)
    (h5 : place_sctx sctx shards sgups = .chosen u s) :
    map_session cfg sctx shards sgups get_shard get_sgup
      = .done [.update_shard s.name
          ((get_shard s.name).allocated_session_count + 1),
        .update_service_gateway_user_plane u.name
          ((get_sgup u.name).allocated_session_count + 1),
        .update_session_context sctx.name (quality_fill cfg sctx)
          (rsg_fill cfg sctx) (some s.name)] := by
  unfold map_session
  have hg : (sctx.desired_shard == "" && !rsg_unset sctx) = true := by
    rw [h4]
    simp [h3]
  simp only [length_beq_zero_eq_false _ h1, length_beq_zero_eq_false _ h2,
    Bool.false_eq_true, if_false, hg, if_true]
  rw [h5]

/-- Claim C1 witness: a concrete placement issuing the three writes in
order, both counters coming from the point reads plus one. -/
theorem C1_witness :
    map_session ⟨1000, "basic-internet"⟩ ⟨"c1", 7, ["basic"], ""⟩
      [⟨"X", "A", 50, 0⟩] [⟨"A", ["basic"], 100, 0⟩]
      (fun _ => ⟨"X", "A", 50, 0⟩) (fun _ => ⟨"A", ["basic"], 100, 0⟩)
      = .done [.update_shard "X" 1,
          .update_service_gateway_user_plane "A" 1,
          .update_session_context "c1" none none (some "X")] :=
  C1_counter_bump ⟨1000, "basic-internet"⟩ ⟨"c1", 7, ["basic"], ""⟩
    [⟨"X", "A", 50, 0⟩] [⟨"A", ["basic"], 100, 0⟩]
    (fun _ => ⟨"X", "A", 50, 0⟩) (fun _ => ⟨"A", ["basic"], 100, 0⟩)
    ⟨"A", ["basic"], 100, 0⟩ ⟨"X", "A", 50, 0⟩
    (by decide) (by decide) rfl rfl (by decide)

/-- Claim C3 (amended): for a session context with empty desired_shard and
unset required_service_groups, map_session fills the default
required_service_groups and commits it (with any quality default) in one
update_session_context, but skips Steps C-F in the same invocation: the
placement guard reads the stored required_service_group, so no desired_shard
is selected even when an eligible SGUP/Shard pair exists; placement can only
happen on a later invocation, after the defaults have been written back. -/
theorem C3_defaults_only_commit (cfg : Config) (sctx : SessionContext)
    (shards : List Shard) (sgups : List ServiceGatewayUserPlane)
    (get_shard : String → Shard) (get_sgup : String → ServiceGatewayUserPlane)
    (h1 : shards ≠ []) (h2 : sgups ≠ []) (h3 : rsg_unset sctx = true) :
    map_session cfg sctx shards sgups get_shard get_sgup
      = .done [.update_session_context sctx.name (quality_fill cfg sctx)
          (some (default_rsg_list cfg.default_required_service_groups)) none] := by
  unfold map_session
  have hg : (sctx.desired_shard == "" && !rsg_unset sctx) = false := by
    rw [h3]
    simp
  have hr : rsg_fill cfg sctx
      = some (default_rsg_list cfg.default_required_service_groups) := by
    unfold rsg_fill
    rw [h3]
    rfl
  simp only [length_beq_zero_eq_false _ h1, length_beq_zero_eq_false _ h2,
    Bool.false_eq_true, if_false, hg, hr, Option.isSome_some, Bool.or_true,
    if_true]

/-- Claim C3 witness: a concrete invocation with unset
required_service_groups commits exactly the defaults. -/
theorem C3_witness :
    map_session ⟨1000, "basic-internet"⟩ ⟨"c2", 0, [""], ""⟩
      [⟨"X", "A", 50, 0⟩] [⟨"A", ["basic"], 100, 0⟩]
      (fun _ => ⟨"X", "A", 50, 0⟩) (fun _ => ⟨"A", ["basic"], 100, 0⟩)
      = .done [.update_session_context "c2" (some 1000)
          (some ["basic-internet"]) none] :=
  C3_defaults_only_commit ⟨1000, "basic-internet"⟩ ⟨"c2", 0, [""], ""⟩
    [⟨"X", "A", 50, 0⟩] [⟨"A", ["basic"], 100, 0⟩]
    (fun _ => ⟨"X", "A", 50, 0⟩) (fun _ => ⟨"A", ["basic"], 100, 0⟩)
    (by decide) (by decide) rfl

/-- Claim C4: for every session context whose desired_shard is already
non-empty, every write issued by map_session is an update_session_context
for that context with no desired_shard field; no shard or SGUP counter
update is ever issued on its behalf. -/
theorem C4_existing_desired_shard_untouched (cfg : Config)
    (sctx : SessionContext) (shards : List Shard)
    (sgups : List ServiceGatewayUserPlane) (get_shard : String → Shard)
    (get_sgup : String → ServiceGatewayUserPlane)
    (h : sctx.desired_shard ≠ "") (ws : List WriteOp)
    (hws : map_session cfg sctx shards sgups get_shard get_sgup = .done ws)
    (op : WriteOp) (hop : op ∈ ws) :
    ∃ q r, op = .update_session_context sctx.name q r none := by
  unfold map_session at hws
  have hg : (sctx.desired_shard == "" && !rsg_unset sctx) = false := by
    have hb : (sctx.desired_shard == "") = false := by simpa using h
    rw [hb]
    rfl
  rw [hg] at hws
  split at hws
  · cases hws
  · split at hws
    · cases hws
    · rw [if_neg (by simp)] at hws
      split at hws
      · injection hws with hws
        subst hws
        rw [List.mem_singleton] at hop
        exact ⟨quality_fill cfg sctx, rsg_fill cfg sctx, hop⟩
      · injection hws with hws
        subst hws
        cases hop

/-- Claim C4 witness: a concrete invocation for an already-placed context
issues only a desired-shard-free session-context update. -/
theorem C4_witness :
    ∃ q r, WriteOp.update_session_context "c1" (some 1000) none none
      = WriteOp.update_session_context "c1" q r none :=
  C4_existing_desired_shard_untouched ⟨1000, "basic-internet"⟩
    ⟨"c1", 0, ["basic"], "X"⟩ [⟨"X", "A", 50, 0⟩] [⟨"A", ["basic"], 100, 0⟩]
    (fun _ => ⟨"X", "A", 50, 0⟩) (fun _ => ⟨"A", ["basic"], 100, 0⟩)
    (by decide) [.update_session_context "c1" (some 1000) none none]
    (by decide) (.update_session_context "c1" (some 1000) none none)
    (by decide)

/-- Claim C5 (amended): for a session context with non-empty desired_shard
and unset required_quality or unset required_service_groups, map_session
skips Steps C-F and commits the default fills in exactly one
update_session_context, PROVIDED both snapshot lists are non-empty; when
the shard list or the SGUP list is empty, the invocation returns at the
sanity checks before Step A and issues no write at all. -/
theorem C5_short_circuit_commits_defaults (cfg : Config)
    (sctx : SessionContext) (shards : List Shard)
    (sgups : List ServiceGatewayUserPlane) (get_shard : String → Shard)
    (get_sgup : String → ServiceGatewayUserPlane)
    (h1 : shards ≠ []) (h2 : sgups ≠ []) (h3 : sctx.desired_shard ≠ "")
    (h4 : quality_unset sctx = true ∨ rsg_unset sctx = true) :
    map_session cfg sctx shards sgups get_shard get_sgup
      = .done [.update_session_context sctx.name (quality_fill cfg sctx)
          (rsg_fill cfg sctx) none] := by
  unfold map_session
  have hg : (sctx.desired_shard == "" && !rsg_unset sctx) = false := by
    have hb : (sctx.desired_shard == "") = false := by simpa using h3
    rw [hb]
    rfl
  have hor : ((quality_fill cfg sctx).isSome || (rsg_fill cfg sctx).isSome)
      = true := by
    rcases h4 with h4 | h4
    · simp [quality_fill, h4]
    · simp [rsg_fill, h4]
  simp only [length_beq_zero_eq_false _ h1, length_beq_zero_eq_false _ h2,
    Bool.false_eq_true, if_false, hg, hor, if_true]

/-- Claim C5 witness: a concrete short-circuited invocation with non-empty
snapshots commits the quality default in one session-context update. -/
theorem C5_witness :
    map_session ⟨1000, "basic-internet"⟩ ⟨"c3", 0, ["basic"], "X"⟩
      [⟨"X", "A", 50, 0⟩] [⟨"A", ["basic"], 100, 0⟩]
      (fun _ => ⟨"X", "A", 50, 0⟩) (fun _ => ⟨"A", ["basic"], 100, 0⟩)
      = .done [.update_session_context "c3" (some 1000) none none] :=
  C5_short_circuit_commits_defaults ⟨1000, "basic-internet"⟩
    ⟨"c3", 0, ["basic"], "X"⟩ [⟨"X", "A", 50, 0⟩] [⟨"A", ["basic"], 100, 0⟩]
    (fun _ => ⟨"X", "A", 50, 0⟩) (fun _ => ⟨"A", ["basic"], 100, 0⟩)
    (by decide) (by decide) (by decide) (Or.inl rfl)

/-- Claim C6: whenever map_session commits a desired_shard, the chosen
shard's desired_sgup equals the chosen SGUP's name, the chosen SGUP's
supported service groups form a superset of the context's required service
groups, and the chosen SGUP is referenced by at least one shard's
desired_sgup. -/
theorem C6_placement_consistency (cfg : Config) (sctx : SessionContext)
    (shards : List Shard) (sgups : List ServiceGatewayUserPlane)
    (get_shard : String → Shard) (get_sgup : String → ServiceGatewayUserPlane)
    (ws : List WriteOp)
    (hws : map_session cfg sctx shards sgups get_shard get_sgup = .done ws)
    (n : String) (q : Option Nat) (r : Option (List String)) (dsh : String)
    (hop : WriteOp.update_session_context n q r (some dsh) ∈ ws) :
    ∃ u s, place_sctx sctx shards sgups = .chosen u s ∧ dsh = s.name ∧
      s.desired_sgup = u.name ∧
      (∀ g ∈ sctx.required_service_group, g ∈ u.supported_service_group) ∧
      ∃ sh ∈ shards, sh.desired_sgup = u.name := by
  unfold map_session at hws
  split at hws
  · cases hws
  · split at hws
    · cases hws
    · split at hws
      · split at hws
        · cases hws
        · cases hws
        · cases hws
        · rename_i u s hp
          injection hws with hws
          subst hws
          simp only [List.mem_cons, List.not_mem_nil, or_false] at hop
          rcases hop with hop | hop | hop
          · cases hop
          · cases hop
          · injection hop with hn hq hr hd
            injection hd with hd
            obtain ⟨hu, hs⟩ := place_sctx_chosen sctx shards sgups u s hp
            obtain ⟨href, hsup, -⟩ := sgup_candidate_spec _ _ _ _ hu
            obtain ⟨-, hdes, -, -⟩ := shard_load_key_spec _ _ _ hs
            exact ⟨u, s, hp, hd, hdes, hsup, href⟩
      · split at hws
        · injection hws with hws
          subst hws
          rw [List.mem_singleton] at hop
          injection hop with hn hq hr hd
          cases hd
        · injection hws with hws
          subst hws
          cases hop

/-- Claim C6 witness: a concrete successful placement whose committed
desired_shard satisfies the three consistency properties. -/
theorem C6_witness :
    ∃ u s, place_sctx ⟨"c1", 7, ["basic"], ""⟩ [⟨"X", "A", 50, 0⟩]
        [⟨"A", ["basic"], 100, 0⟩] = .chosen u s ∧ "X" = s.name ∧
      s.desired_sgup = u.name ∧
      (∀ g ∈ (⟨"c1", 7, ["basic"], ""⟩ : SessionContext).required_service_group,
        g ∈ u.supported_service_group) ∧
      ∃ sh ∈ ([⟨"X", "A", 50, 0⟩] : List Shard), sh.desired_sgup = u.name :=
  C6_placement_consistency ⟨1000, "basic-internet"⟩ ⟨"c1", 7, ["basic"], ""⟩
    [⟨"X", "A", 50, 0⟩] [⟨"A", ["basic"], 100, 0⟩]
    (fun _ => ⟨"X", "A", 50, 0⟩) (fun _ => ⟨"A", ["basic"], 100, 0⟩)
    [.update_shard "X" 1, .update_service_gateway_user_plane "A" 1,
      .update_session_context "c1" none none (some "X")]
    (by decide) "c1" none none "X" (by decide)

/-- Claim C8: policy materialization is idempotent: over two consecutive
runs of create_default_items with the same configuration and shard
snapshot, against a store whose session-context listing reflects earlier
creations, each distinct fingerprint is created at most once, and no create
is ever issued for a fingerprint already present initially (existing
records are never updated: the function issues creates only). -/
theorem C8_materialization_idempotent (cfg : Config) (config : List Entry)
    (shards st0 st1 st2 : List String) (ops1 ops2 : List CreateOp)
    (h1 : create_default_items cfg config shards st0 = (st1, ops1))
    (h2 : create_default_items cfg config shards st1 = (st2, ops2)) :
    ((ops1 ++ ops2).map CreateOp.name).Nodup ∧
    ∀ op ∈ ops1 ++ ops2, op.name ∉ st0 := by
  unfold create_default_items at h1 h2
  have hn1 : (ops1.map CreateOp.name).Nodup := by
    have hx := create_many_nodup cfg shards (derive_config config) st0
    rw [h1] at hx
    exact hx
  have hn2 : (ops2.map CreateOp.name).Nodup := by
    have hx := create_many_nodup cfg shards (derive_config config) st1
    rw [h2] at hx
    exact hx
  have hf1 : ∀ op ∈ ops1, op.name ∉ st0 := by
    intro op hop
    have hx := create_many_fresh cfg shards (derive_config config) st0 op
    rw [h1] at hx
    exact hx hop
  have hf2 : ∀ op ∈ ops2, op.name ∉ st1 := by
    intro op hop
    have hx := create_many_fresh cfg shards (derive_config config) st1 op
    rw [h2] at hx
    exact hx hop
  have hs1 : ∀ op ∈ ops1, op.name ∈ st1 := by
    intro op hop
    have hx := create_many_name_in_state cfg shards (derive_config config) st0 op
    rw [h1] at hx
    exact hx hop
  have hmono : ∀ m ∈ st0, m ∈ st1 := by
    intro m hm
    have hx := create_many_mem_mono cfg shards (derive_config config) st0 m hm
    rw [h1] at hx
    exact hx
  constructor
  · rw [List.map_append]
    refine List.Nodup.append hn1 hn2 ?_
    intro a ha hb
    rw [List.mem_map] at ha hb
    obtain ⟨o1, ho1, he1⟩ := ha
    obtain ⟨o2, ho2, he2⟩ := hb
    have hin : o1.name ∈ st1 := hs1 o1 ho1
    rw [he1, ← he2] at hin
    exact hf2 o2 ho2 hin
  · intro op hop
    rw [List.mem_append] at hop
    rcases hop with hop | hop
    · exact hf1 op hop
    · intro h0
      exact hf2 op hop (hmono _ h0)

/-- Claim C8 witness: two runs over a one-entry configuration create the
entry once; the second run issues nothing new. -/
theorem C8_witness :
    (((create_default_items ⟨1000, "basic-internet"⟩
        [⟨some "e1", none, some "c", none, none, none, none, none, none,
          none, []⟩] [] []).2
      ++ (create_default_items ⟨1000, "basic-internet"⟩
        [⟨some "e1", none, some "c", none, none, none, none, none, none,
          none, []⟩] []
        (create_default_items ⟨1000, "basic-internet"⟩
          [⟨some "e1", none, some "c", none, none, none, none, none, none,
            none, []⟩] [] []).1).2).map CreateOp.name).Nodup ∧
    ∀ op ∈ (create_default_items ⟨1000, "basic-internet"⟩
        [⟨some "e1", none, some "c", none, none, none, none, none, none,
          none, []⟩] [] []).2
      ++ (create_default_items ⟨1000, "basic-internet"⟩
        [⟨some "e1", none, some "c", none, none, none, none, none, none,
          none, []⟩] []
        (create_default_items ⟨1000, "basic-internet"⟩
          [⟨some "e1", none, some "c", none, none, none, none, none, none,
            none, []⟩] [] []).1).2, op.name ∉ ([] : List String) :=
  C8_materialization_idempotent ⟨1000, "basic-internet"⟩
    [⟨some "e1", none, some "c", none, none, none, none, none, none,
      none, []⟩] [] [] _ _ _ _ rfl rfl

end UpsfScm
